import Mathlib

/-!
Verification of the policy-directive and token-lifecycle core of
strawberry-django-auth.

The directives (`TokenRequired`, `IsAuthenticated`, `IsVerified`,
`HasPermission`) are embedded from `gqlauth/core/directives.py`.
External collaborators that are not part of the repository sources
(the JWT token finder, `TokenType.from_token`, `get_user_instance`)
are passed as explicit function parameters.  The mutation handlers
(`RevokeToken`, `SwapEmails`) and the refresh-token store, whose code
is not under `src/` (only their tests are), are modelled from the spec
and marked as such in their doc comments.
-/

/-- The denial codes of `GQLAuthErrors` used by the policy directives
(stable wire values, spec §6). -/
inductive GQLAuthErrors where
  | UNAUTHENTICATED
  | NOT_VERIFIED
  | INVALID_TOKEN
  | EXPIRED_TOKEN
  | NO_SUFFICIENT_PERMISSIONS
deriving DecidableEq, Repr

/-- `GQLAuthError` from `gqlauth.core.types_`: a structured denial with a
code and an optional localized message.  `GQLAuthError(code=...)` in the
source leaves the message at its default, modelled by `none`. -/
structure GQLAuthError where
  code : GQLAuthErrors
  message : Option String := none
deriving DecidableEq, Repr

/-- The per-account verification record (`user.status` in Django):
the fields this core reads. -/
structure UserStatus where
  verified : Bool
deriving DecidableEq, Repr

/-- The identity as read by the directives: `is_authenticated`,
`first_name`, the username field, the optional status record, and the
granted permission strings (`has_perm`). -/
structure User where
  is_authenticated : Bool
  first_name : String
  username : String
  status : Option UserStatus
  perms : List String
deriving DecidableEq, Repr

/-- Django's `user.has_perm(p)`: membership of `p` in the identity's
granted permission set. -/
def User.has_perm (u : User) (p : String) : Bool :=
  u.perms.contains p

/-- The shared request context (`info.context`).  `user` is the
resolved-identity slot; `rest` stands for every other datum carried by
the request context, which no directive may touch. -/
structure Context where
  user : User
  rest : List String
deriving DecidableEq, Repr

/-- A decoded token (`TokenType` from `gqlauth.jwt.types_`), opaque to
the directives except for `get_user_instance`. -/
structure TokenType where
  payload : String
deriving DecidableEq, Repr

/-- Outcome of `TokenType.from_token`: success, `PyJWTError` (raised by
python-jwt on a malformed or forged token), or `TokenExpired`. -/
inductive DecodeResult where
  | ok (t : TokenType)
  | pyJWTError
  | tokenExpired
deriving DecidableEq, Repr

/-- `TokenRequired.resolve_permission` (`gqlauth/core/directives.py`,
lines 42-61).  The token finder (`app_settings.JWT_TOKEN_FINDER`),
`TokenType.from_token` and `TokenType.get_user_instance` are external
collaborators passed as parameters.  State passing makes the context
write `info.context.user = user` explicit in the returned context. -/
def TokenRequired.resolve_permission (finder : Context → String)
    (from_token : String → DecodeResult) (get_user_instance : TokenType → User)
    (ctx : Context) : Option GQLAuthError × Context :=
  let token := finder ctx
  match from_token token with
  | DecodeResult.pyJWTError => (some { code := GQLAuthErrors.INVALID_TOKEN }, ctx)
  | DecodeResult.tokenExpired => (some { code := GQLAuthErrors.EXPIRED_TOKEN }, ctx)
  | DecodeResult.ok token_type =>
      let user := get_user_instance token_type
      (none, { ctx with user := user })

/-- `IsAuthenticated.resolve_permission` (`gqlauth/core/directives.py`,
lines 70-74).  The source never writes the context; state passing
returns it unchanged. -/
def IsAuthenticated.resolve_permission (user : User) (ctx : Context) :
    Option GQLAuthError × Context :=
  if !user.is_authenticated then
    (some { code := GQLAuthErrors.UNAUTHENTICATED }, ctx)
  else
    (none, ctx)

/-- `get_status` from `gqlauth.core.utils`: returns the identity's
status record when one exists (an anonymous identity has none).  A
present Django model instance is truthy, so the walrus-`and` test in
`IsVerified` reduces to presence plus the `verified` flag. -/
def get_status (u : User) : Option UserStatus :=
  u.status

/-- `IsVerified.resolve_permission` (`gqlauth/core/directives.py`,
lines 83-87): pass when a status record exists and is verified,
otherwise deny with NOT_VERIFIED. -/
def IsVerified.resolve_permission (user : User) (ctx : Context) :
    Option GQLAuthError × Context :=
  match get_status user with
  | some status => if status.verified then (none, ctx)
      else (some { code := GQLAuthErrors.NOT_VERIFIED }, ctx)
  | none => (some { code := GQLAuthErrors.NOT_VERIFIED }, ctx)

/-- The denial message built by `HasPermission` (line 105): Python's
`user.first_name or getattr(user, user.USERNAME_FIELD, None)` falls
back to the username when `first_name` is empty (falsy). -/
def HasPermission.denial_message (user : User) (path_key : String) : String :=
  let display := if user.first_name = "" then user.username else user.first_name
  s!"User {display}, has not sufficient permissions for {path_key}"

/-- `HasPermission.resolve_permission` (`gqlauth/core/directives.py`,
lines 99-108): the `for permission in self.permissions` loop, returning
a NO_SUFFICIENT_PERMISSIONS denial at the first permission the identity
lacks, and `None` after the loop. -/
def HasPermission.resolve_permission (permissions : List String) (user : User)
    (path_key : String) (ctx : Context) : Option GQLAuthError × Context :=
  match permissions with
  | [] => (none, ctx)
  | permission :: more =>
      if !user.has_perm permission then
        (some { code := GQLAuthErrors.NO_SUFFICIENT_PERMISSIONS,
                message := some (HasPermission.denial_message user path_key) }, ctx)
      else
        HasPermission.resolve_permission more user path_key ctx

/-- Ghost trace of the `HasPermission` loop: the permission string the
loop variable holds at the iteration that returns the denial (`none`
when the loop runs to completion). -/
def HasPermission.failing_permission (permissions : List String) (user : User) :
    Option String :=
  match permissions with
  | [] => none
  | permission :: more =>
      if !user.has_perm permission then some permission
      else HasPermission.failing_permission more user

/-- Stateful token-store failures (spec §4.2 / §7): `NotFound` (token
absent), `Revoked` (token previously invalidated), `Expired`. -/
inductive StoreError where
  | NotFound
  | Revoked
  | Expired
deriving DecidableEq, Repr

/-- A persisted refresh-token record as read by `revoke` (spec §3):
only the revocation flag matters here. -/
structure TokenRecord where
  revoked : Bool
deriving DecidableEq, Repr

/-- The token store for revocation: persisted refresh records keyed by
token string. -/
abbrev Store := List (String × TokenRecord)

/-- Modelled from the spec: `Store.revoke` (§4.2) — the token store
implementation is not under `src/` (only `test_revoke_token.py` is).
Revoke fails with `NotFound` on an unknown token; revoking an
already-revoked token is a reported failure, not silently ignored;
otherwise the record's `revoked` flag is set. -/
def Store.revoke (s : Store) (token : String) : Except StoreError Store :=
  match s.find? (fun r => r.1 = token) with
  | none => Except.error StoreError.NotFound
  | some found =>
      if found.2.revoked then Except.error StoreError.Revoked
      else Except.ok (s.map (fun r =>
        if r.1 = token then (r.1, { r.2 with revoked := true }) else r))

/-- Whether the store holds `token` with its `revoked` flag still
clear: the "valid, never-before-revoked" precondition of the revoke
tests. -/
def Store.isActive (s : Store) (token : String) : Bool :=
  match s.find? (fun r => r.1 = token) with
  | none => false
  | some found => !found.2.revoked

/-- The `revokePayload` field of the RevokeToken response shape. -/
structure RevokePayload where
  revoked : Bool
deriving DecidableEq, Repr

/-- The RevokeToken response shape (spec §4.5 / §6): `success`,
`errors` (empty list standing for the absent/null errors mapping), and
the optional `revokePayload`. -/
structure RevokeResponse where
  success : Bool
  errors : List String
  revokePayload : Option RevokePayload
deriving DecidableEq, Repr

/-- The human-readable message attached to a store failure (spec §7:
every failure carries a localizable message). -/
def storeErrorMessage : StoreError → String
  | StoreError.NotFound => "Invalid token."
  | StoreError.Revoked => "Token is revoked."
  | StoreError.Expired => "Token is expired."

/-- Modelled from the spec: the RevokeToken mutation handler (§4.5) —
its code is not under `src/` (only its tests are).  Calls
`Store.revoke`; on success returns `success=true` with
`revokePayload.revoked=true` and empty errors; on any store failure
returns `success=false`, populated errors, and no payload. -/
def revokeToken (s : Store) (token : String) : RevokeResponse × Store :=
  match Store.revoke s token with
  | Except.ok updated =>
      ({ success := true, errors := [],
         revokePayload := some { revoked := true } }, updated)
  | Except.error e =>
      ({ success := false, errors := [storeErrorMessage e],
         revokePayload := none }, s)

/-- The identity fields read and written by SwapEmails: the primary
email, the optional secondary email, and the stored password
confirmation secret. -/
structure EmailUser where
  email : String
  secondary_email : Option String
  password : String
deriving DecidableEq, Repr

/-- The SwapEmails response shape: `success` and `errors` (spec §6). -/
structure SwapResponse where
  success : Bool
  errors : List String
deriving DecidableEq, Repr

/-- Modelled from the spec: the SwapEmails mutation handler (§4.5) —
its code is not under `src/` (only `test_swap_emails.py` is).  Fails
with SECONDARY_EMAIL_REQUIRED when no secondary email is on record;
with a correct password confirmation it atomically exchanges the
primary and secondary email fields; a wrong password is a failure with
no mutation.  Every failure path returns the identity unchanged. -/
def swapEmails (u : EmailUser) (password : String) : SwapResponse × EmailUser :=
  match u.secondary_email with
  | none => ({ success := false, errors := ["SECONDARY_EMAIL_REQUIRED"] }, u)
  | some s =>
      if password = u.password then
        ({ success := true, errors := [] },
         { u with email := s, secondary_email := some u.email })
      else
        ({ success := false, errors := ["INVALID_PASSWORD"] }, u)

/-- A persisted refresh record for rotation (spec §3): revocation
flag, the consumed-by-rotation flag, and the back-reference to the
predecessor token it was rotated from. -/
structure RefreshRecord where
  revoked : Bool
  rotated : Bool
  rotated_from : Option String
deriving DecidableEq, Repr

/-- The refresh-token store for rotation, keyed by token string. -/
abbrev RefreshStore := List (String × RefreshRecord)

/-- Modelled from the spec: `Store.rotate` (§4.2, §5) — the token
store is not under `src/`.  Rotation resolves the old record (failing
`NotFound` when absent, `Revoked` when already revoked or already
consumed by a rotation), marks it consumed, and persists a fresh
successor record whose `rotated_from` points at the predecessor.  Spec
§5 requires `rotate` on a single token to be serialized per-token, so
a concurrent race is an interleaving of these sequential calls. -/
def RefreshStore.rotate (s : RefreshStore) (token : String) (fresh : String) :
    Except StoreError (String × RefreshStore) :=
  match s.find? (fun r => r.1 = token) with
  | none => Except.error StoreError.NotFound
  | some found =>
      if found.2.revoked || found.2.rotated then Except.error StoreError.Revoked
      else
        let marked := s.map (fun r =>
          if r.1 = token then (r.1, { r.2 with rotated := true }) else r)
        Except.ok (fresh,
          (fresh, { revoked := false, rotated := false,
                    rotated_from := some token }) :: marked)

/-- A record usable to mint new access tokens that succeeds `token` in
its rotation chain: `rotated_from` points at `token` and the record is
neither revoked nor itself consumed. -/
def usableSuccessor (token : String) (r : String × RefreshRecord) : Bool :=
  r.2.rotated_from == some token && !r.2.revoked && !r.2.rotated

/-- A verified, authenticated sample identity used by witnesses. -/
def sampleUser : User :=
  { is_authenticated := true, first_name := "Ada", username := "ada",
    status := some { verified := true }, perms := ["P1"] }

/-- An anonymous sample identity: unauthenticated, no status record,
no permissions. -/
def anonUser : User :=
  { is_authenticated := false, first_name := "", username := "",
    status := none, perms := [] }

/-- A sample request context used by witnesses. -/
def sampleCtx : Context :=
  { user := anonUser, rest := ["header"] }

/-- A concrete identity for the SwapEmails witnesses: primary email
"p", secondary email "s". -/
def swapSample : EmailUser :=
  { email := "p", secondary_email := some "s", password := "pw" }

/-- A concrete identity without a secondary email on record. -/
def noSecondarySample : EmailUser :=
  { email := "p", secondary_email := none, password := "pw" }

/-- A concrete one-record token store holding the live token "t". -/
def liveStore : Store :=
  [("t", { revoked := false })]

/-- A concrete refresh store holding one live, never-rotated token
"t". -/
def rotSample : RefreshStore :=
  [("t", { revoked := false, rotated := false, rotated_from := none })]

/-- The refresh store after rotating "t" into the fresh token "n1":
the successor record plus the consumed predecessor. -/
def rotSampleAfter : RefreshStore :=
  [("n1", { revoked := false, rotated := false, rotated_from := some "t" }),
   ("t", { revoked := false, rotated := true, rotated_from := none })]

/-- Claim C1: if decoding the found token raises `PyJWTError`
(malformed/forged), `TokenRequired.resolve_permission` denies with
INVALID_TOKEN; if it raises `TokenExpired`, it denies with
EXPIRED_TOKEN; and each code arises only from its own failure kind,
never from the other. -/
theorem tokenRequired_failure_codes (finder : Context → String)
    (from_token : String → DecodeResult) (get_user_instance : TokenType → User)
    (ctx : Context) :
    (from_token (finder ctx) = DecodeResult.pyJWTError →
      (TokenRequired.resolve_permission finder from_token get_user_instance ctx).1 =
        some { code := GQLAuthErrors.INVALID_TOKEN }) ∧
    (from_token (finder ctx) = DecodeResult.tokenExpired →
      (TokenRequired.resolve_permission finder from_token get_user_instance ctx).1 =
        some { code := GQLAuthErrors.EXPIRED_TOKEN }) ∧
    ((TokenRequired.resolve_permission finder from_token get_user_instance ctx).1 =
        some { code := GQLAuthErrors.INVALID_TOKEN } →
      from_token (finder ctx) = DecodeResult.pyJWTError) ∧
    ((TokenRequired.resolve_permission finder from_token get_user_instance ctx).1 =
        some { code := GQLAuthErrors.EXPIRED_TOKEN } →
      from_token (finder ctx) = DecodeResult.tokenExpired) := by
  unfold TokenRequired.resolve_permission
  cases h : from_token (finder ctx) <;> simp [h]

/-- Witness for C1: a decoder that raises `PyJWTError` yields
INVALID_TOKEN and one that raises `TokenExpired` yields EXPIRED_TOKEN,
at concrete inputs. -/
theorem tokenRequired_failure_codes_witness :
    (TokenRequired.resolve_permission (fun _ => "bad")
        (fun _ => DecodeResult.pyJWTError) (fun _ => anonUser) sampleCtx).1 =
      some { code := GQLAuthErrors.INVALID_TOKEN } ∧
    (TokenRequired.resolve_permission (fun _ => "old")
        (fun _ => DecodeResult.tokenExpired) (fun _ => anonUser) sampleCtx).1 =
      some { code := GQLAuthErrors.EXPIRED_TOKEN } :=
  ⟨(tokenRequired_failure_codes (fun _ => "bad") (fun _ => DecodeResult.pyJWTError)
      (fun _ => anonUser) sampleCtx).1 rfl,
   (tokenRequired_failure_codes (fun _ => "old") (fun _ => DecodeResult.tokenExpired)
      (fun _ => anonUser) sampleCtx).2.1 rfl⟩

/-- Claim C6: `IsAuthenticated.resolve_permission` denies with
UNAUTHENTICATED exactly when the identity is unauthenticated, and
passes (returns `none`) exactly when it is authenticated. -/
theorem isAuthenticated_denies_iff (user : User) (ctx : Context) :
    ((IsAuthenticated.resolve_permission user ctx).1 =
        some { code := GQLAuthErrors.UNAUTHENTICATED } ↔
      user.is_authenticated = false) ∧
    ((IsAuthenticated.resolve_permission user ctx).1 = none ↔
      user.is_authenticated = true) := by
  unfold IsAuthenticated.resolve_permission
  cases h : user.is_authenticated <;> simp [h]

/-- Witness for C6: the anonymous identity is denied UNAUTHENTICATED
and the authenticated sample identity passes. -/
theorem isAuthenticated_denies_iff_witness :
    (IsAuthenticated.resolve_permission anonUser sampleCtx).1 =
      some { code := GQLAuthErrors.UNAUTHENTICATED } ∧
    (IsAuthenticated.resolve_permission sampleUser sampleCtx).1 = none :=
  ⟨(isAuthenticated_denies_iff anonUser sampleCtx).1.mpr rfl,
   (isAuthenticated_denies_iff sampleUser sampleCtx).2.mpr rfl⟩

/-- Claim C7: `IsVerified.resolve_permission` denies with NOT_VERIFIED
exactly when the identity's status record is absent or unverified, and
passes exactly when a status record exists and is verified. -/
theorem isVerified_denies_iff (user : User) (ctx : Context) :
    ((IsVerified.resolve_permission user ctx).1 =
        some { code := GQLAuthErrors.NOT_VERIFIED } ↔
      (get_status user = none ∨
        ∃ st, get_status user = some st ∧ st.verified = false)) ∧
    ((IsVerified.resolve_permission user ctx).1 = none ↔
      ∃ st, get_status user = some st ∧ st.verified = true) := by
  unfold IsVerified.resolve_permission get_status
  cases h : user.status with
  | none => simp [get_status, h]
  | some st => cases hv : st.verified <;> simp [get_status, h, hv]

/-- Witness for C7: a status-less identity is denied NOT_VERIFIED and
the verified sample identity passes. -/
theorem isVerified_denies_iff_witness :
    (IsVerified.resolve_permission anonUser sampleCtx).1 =
      some { code := GQLAuthErrors.NOT_VERIFIED } ∧
    (IsVerified.resolve_permission sampleUser sampleCtx).1 = none :=
  ⟨(isVerified_denies_iff anonUser sampleCtx).1.mpr (Or.inl rfl),
   (isVerified_denies_iff sampleUser sampleCtx).2.mpr
     ⟨{ verified := true }, rfl, rfl⟩⟩

/-- Claim C10: `HasPermission` configured with an empty permission
list passes every identity (including anonymous, permissionless
ones): the loop body never runs, so no denial is produced. -/
theorem hasPermission_empty_passes (user : User) (path_key : String)
    (ctx : Context) :
    (HasPermission.resolve_permission [] user path_key ctx).1 = none :=
  rfl

/-- Claim C8: `IsAuthenticated`, `IsVerified` and `HasPermission`
return the request context unchanged on every input; `TokenRequired`
returns it unchanged on decode failure and, on success, returns it
changed exactly at the resolved-identity slot (`user`), everything
else (`rest`) as before. -/
theorem directives_context_frame :
    (∀ (user : User) (ctx : Context),
      (IsAuthenticated.resolve_permission user ctx).2 = ctx) ∧
    (∀ (user : User) (ctx : Context),
      (IsVerified.resolve_permission user ctx).2 = ctx) ∧
    (∀ (permissions : List String) (user : User) (path_key : String)
        (ctx : Context),
      (HasPermission.resolve_permission permissions user path_key ctx).2 = ctx) ∧
    (∀ (finder : Context → String) (from_token : String → DecodeResult)
        (get_user_instance : TokenType → User) (ctx : Context),
      (TokenRequired.resolve_permission finder from_token get_user_instance ctx).2 =
        match from_token (finder ctx) with
        | DecodeResult.ok token_type =>
            { ctx with user := get_user_instance token_type }
        | DecodeResult.pyJWTError => ctx
        | DecodeResult.tokenExpired => ctx) := by
  refine ⟨?_, ?_, ?_, ?_⟩
  · intro user ctx
    unfold IsAuthenticated.resolve_permission
    cases user.is_authenticated <;> simp
  · intro user ctx
    unfold IsVerified.resolve_permission
    cases get_status user with
    | none => rfl
    | some st => cases hv : st.verified <;> simp [hv]
  · intro permissions user path_key ctx
    induction permissions with
    | nil => rfl
    | cons p more ih =>
        unfold HasPermission.resolve_permission
        cases user.has_perm p <;> simp [ih]
  · intro finder from_token get_user_instance ctx
    unfold TokenRequired.resolve_permission
    cases h : from_token (finder ctx) <;> simp [h]

/-- Claim C2: `HasPermission.resolve_permission` passes exactly when
the identity holds every configured permission; the loop denies at the
first permission (in declaration order) the identity lacks, matching
`List.find?` over the declared list; and whenever some permission is
missing the result is the single NO_SUFFICIENT_PERMISSIONS denial with
the message naming the identity and the operation path. -/
theorem hasPermission_first_missing (permissions : List String) (user : User)
    (path_key : String) (ctx : Context) :
    ((HasPermission.resolve_permission permissions user path_key ctx).1 = none ↔
      ∀ p ∈ permissions, user.has_perm p = true) ∧
    HasPermission.failing_permission permissions user =
      permissions.find? (fun p => !user.has_perm p) ∧
    (∀ p, HasPermission.failing_permission permissions user = some p →
      (HasPermission.resolve_permission permissions user path_key ctx).1 =
        some { code := GQLAuthErrors.NO_SUFFICIENT_PERMISSIONS,
               message := some (HasPermission.denial_message user path_key) }) := by
  induction permissions with
  | nil =>
      simp [HasPermission.resolve_permission, HasPermission.failing_permission]
  | cons q more ih =>
      cases hq : user.has_perm q with
      | false =>
          simp [HasPermission.resolve_permission,
            HasPermission.failing_permission, List.find?, hq]
      | true =>
          simp [HasPermission.resolve_permission,
            HasPermission.failing_permission, List.find?, hq]
          exact ⟨ih.1, ih.2.1, ih.2.2⟩

/-- Witness for C2: the sample identity holds P1 but lacks P2; with
permissions [P1, P2] the loop denies at P2, and the result is the
NO_SUFFICIENT_PERMISSIONS denial. -/
theorem hasPermission_first_missing_witness :
    HasPermission.failing_permission ["P1", "P2"] sampleUser = some "P2" ∧
    (HasPermission.resolve_permission ["P1", "P2"] sampleUser "mutation" sampleCtx).1 =
      some { code := GQLAuthErrors.NO_SUFFICIENT_PERMISSIONS,
             message := some (HasPermission.denial_message sampleUser "mutation") } :=
  ⟨rfl, (hasPermission_first_missing ["P1", "P2"] sampleUser "mutation"
      sampleCtx).2.2 "P2" rfl⟩

/-- Claim C3: revoking a token that is on record and never revoked
yields `success=true`, `revokePayload.revoked=true` and empty errors;
revoking an unknown or already-revoked token yields `success=false`,
non-empty errors and no payload; and in every response the payload is
present exactly when the errors are empty. -/
theorem revokeToken_response_contract (s : Store) (token : String) :
    (Store.isActive s token = true →
      (revokeToken s token).1.success = true ∧
      (revokeToken s token).1.revokePayload = some { revoked := true } ∧
      (revokeToken s token).1.errors = []) ∧
    (Store.isActive s token = false →
      (revokeToken s token).1.success = false ∧
      (revokeToken s token).1.errors ≠ [] ∧
      (revokeToken s token).1.revokePayload = none) ∧
    ((revokeToken s token).1.revokePayload.isSome ↔
      (revokeToken s token).1.errors = []) := by
  unfold revokeToken Store.revoke Store.isActive
  cases h : s.find? (fun r => r.1 = token) with
  | none => simp
  | some found => cases hr : found.2.revoked <;> simp [hr]

/-- Witness for C3: a one-record store with a live token; revoking it
succeeds, revoking an unknown token fails. -/
theorem revokeToken_response_contract_witness :
    ((revokeToken liveStore "t").1.success = true ∧
      (revokeToken liveStore "t").1.revokePayload = some { revoked := true } ∧
      (revokeToken liveStore "t").1.errors = []) ∧
    ((revokeToken liveStore "x").1.success = false ∧
      (revokeToken liveStore "x").1.errors ≠ [] ∧
      (revokeToken liveStore "x").1.revokePayload = none) :=
  ⟨(revokeToken_response_contract liveStore "t").1 rfl,
   (revokeToken_response_contract liveStore "x").2.1 rfl⟩

/-- Claim C4: with a secondary email on record and a correct password
confirmation, SwapEmails succeeds with empty errors and exchanges the
two email values exactly: the new primary is the old secondary and the
new secondary is the old primary. -/
theorem swapEmails_exact_swap (u : EmailUser) (password : String) (s : String)
    (hs : u.secondary_email = some s) (hp : password = u.password) :
    (swapEmails u password).1.success = true ∧
    (swapEmails u password).1.errors = [] ∧
    (swapEmails u password).2.email = s ∧
    (swapEmails u password).2.secondary_email = some u.email := by
  unfold swapEmails
  rw [hs]
  simp [hp]

/-- Witness for C4: concrete identity with primary "p" and secondary
"s"; after the swap the primary is "s" and the secondary is "p". -/
theorem swapEmails_exact_swap_witness :
    (swapEmails swapSample "pw").2.email = "s" ∧
    (swapEmails swapSample "pw").2.secondary_email = some "p" :=
  ⟨(swapEmails_exact_swap swapSample "pw" "s" rfl rfl).2.2.1,
   (swapEmails_exact_swap swapSample "pw" "s" rfl rfl).2.2.2⟩

/-- Claim C5: with no secondary email on record, SwapEmails fails with
the SECONDARY_EMAIL_REQUIRED error and returns the identity entirely
unchanged — no field mutation on the error path. -/
theorem swapEmails_requires_secondary (u : EmailUser) (password : String)
    (h : u.secondary_email = none) :
    (swapEmails u password).1.success = false ∧
    (swapEmails u password).1.errors = ["SECONDARY_EMAIL_REQUIRED"] ∧
    (swapEmails u password).2 = u := by
  unfold swapEmails
  rw [h]
  exact ⟨rfl, rfl, rfl⟩

/-- Witness for C5: a concrete identity without a secondary email is
rejected and left unchanged. -/
theorem swapEmails_requires_secondary_witness :
    (swapEmails noSecondarySample "pw").1.success = false ∧
    (swapEmails noSecondarySample "pw").2 = noSecondarySample :=
  ⟨(swapEmails_requires_secondary noSecondarySample "pw" rfl).1,
   (swapEmails_requires_secondary noSecondarySample "pw" rfl).2.2⟩

/-- Key-preserving helper: marking the rotated flag of the record
keyed `token` commutes with looking that key up, since the marking map
never changes a record's key. -/
theorem find_key_over_marked (s : RefreshStore) (token : String) :
    (s.map (fun r =>
        if r.1 = token then (r.1, { r.2 with rotated := true }) else r)).find?
      (fun r => r.1 = token) =
    (s.find? (fun r => r.1 = token)).map
      (fun r => if r.1 = token then (r.1, { r.2 with rotated := true }) else r) := by
  induction s with
  | nil => rfl
  | cons a l ih =>
      by_cases h : a.1 = token
      · simp [List.find?, h]
      · simp [List.find?, h, ih]

/-- Claim C9: rotation attempts on one token are serialized per-token
(spec §5), so a race is a sequential pair; if the first rotation of
`token` succeeds then the second attempt on the resulting store fails
with the stateful `Revoked` error, and — when `token` had no usable
successor before — the final store holds exactly one usable successor
of `token`, never two. -/
theorem rotate_race_single_winner (s : RefreshStore) (token fresh1 fresh2 : String)
    (result : String × RefreshStore)
    (hfresh : ∀ r ∈ s, r.1 ≠ fresh1)
    (hok : RefreshStore.rotate s token fresh1 = Except.ok result) :
    RefreshStore.rotate result.2 token fresh2 = Except.error StoreError.Revoked ∧
    (s.countP (usableSuccessor token) = 0 →
      result.2.countP (usableSuccessor token) = 1) := by
  unfold RefreshStore.rotate at hok
  cases hfind : s.find? (fun r => r.1 = token) with
  | none => rw [hfind] at hok; exact Except.noConfusion hok
  | some found =>
      rw [hfind] at hok
      dsimp only at hok
      by_cases hrv : (found.2.revoked || found.2.rotated) = true
      · rw [if_pos hrv] at hok; exact Except.noConfusion hok
      · rw [if_neg hrv] at hok
        have hkey : found.1 = token := by
          have hp := List.find?_some hfind
          simpa using hp
        have hmem : found ∈ s := List.mem_of_find?_eq_some hfind
        have hne : ¬(fresh1 = token) := fun he => hfresh found hmem (hkey.trans he.symm)
        injection hok with hok2
        constructor
        · rw [← hok2]
          unfold RefreshStore.rotate
          dsimp only
          rw [List.find?_cons_of_neg _ (by simp [hne]), find_key_over_marked, hfind]
          dsimp only [Option.map]
          rw [if_pos hkey]
          simp
        · intro h0
          rw [← hok2]
          have hpnew : usableSuccessor token
              (fresh1, { revoked := false, rotated := false,
                         rotated_from := some token }) = true := by
            simp [usableSuccessor]
          rw [List.countP_cons, hpnew, List.countP_map]
          have hz : List.countP
              ((usableSuccessor token) ∘
                (fun r =>
                  if r.1 = token then (r.1, { r.2 with rotated := true })
                  else r)) s = 0 := by
            rw [List.countP_eq_zero]
            intro a ha
            have hna := List.countP_eq_zero.mp h0 a ha
            by_cases hat : a.1 = token
            · simp [Function.comp, hat, usableSuccessor]
            · simp only [Function.comp, hat, if_neg hat]
              exact hna
          simp [hz]

/-- Witness for C9: rotating the concrete live token "t" a second
time after a successful first rotation fails with `Revoked`, and the
final store holds exactly one usable successor of "t". -/
theorem rotate_race_single_winner_witness :
    RefreshStore.rotate rotSampleAfter "t" "n2" = Except.error StoreError.Revoked ∧
    rotSampleAfter.countP (usableSuccessor "t") = 1 :=
  ⟨(rotate_race_single_winner rotSample "t" "n1" "n2" ("n1", rotSampleAfter)
      (by decide) rfl).1,
   (rotate_race_single_winner rotSample "t" "n1" "n2" ("n1", rotSampleAfter)
      (by decide) rfl).2 rfl⟩
